import Mathlib

/-!
# ChaseUI overlay toolkit: loading overlay, tooltip label, popup and toggle

A shallow embedding of `src/js/loading.js`, `src/js/label.js`, `src/js/popup.js`
and `src/js/toggle.js`.

Modelling conventions.
* An option field holds a JavaScript primitive (`JSValue`); an absent property
  reads as `undefined`. Numbers are integers.
* The document is the list of the elements the widgets address, in document
  order; every element has an identity (`node`), an id, a class list, the text of
  its `style` property and its inner markup. A jQuery selection is the list of
  the matching elements. Ids are assumed to be plain identifiers, so that the
  selector `.loading#x` matches exactly the elements of class `loading` whose
  id is `x`; a message, an id and a fetched fragment are text that becomes part
  of an element's markup and adds no element that a selector of the toolkit
  matches.
* Timer callbacks are separate functions; the caller of the model decides when
  a timer fires.
* Pixel coordinates are rationals (exact arithmetic).
-/

namespace ChaseUI

/-! ## JavaScript values -/

/-- A JavaScript primitive value. -/
inductive JSValue where
  | undefined : JSValue
  | null : JSValue
  | bool (b : Bool) : JSValue
  | num (n : Int) : JSValue
  | str (s : String) : JSValue
  deriving DecidableEq, Repr

namespace JSValue

/-- The abstract operation `ToBoolean`: truthiness of a value. -/
def toBoolean : JSValue → Bool
  | undefined => false
  | null => false
  | bool b => b
  | num n => n != 0
  | str s => s != ""

/-- The operator `a || b`. -/
def or (a b : JSValue) : JSValue :=
  if a.toBoolean then a else b

/-- The operator `a ?? b`. -/
def nullish (a b : JSValue) : JSValue :=
  match a with
  | undefined => b
  | null => b
  | _ => a

/-- String conversion as done by a template literal `${v}`. -/
def toStr : JSValue → String
  | undefined => "undefined"
  | null => "null"
  | bool true => "true"
  | bool false => "false"
  | num n => toString n
  | str s => s

end JSValue

/-- An options object of the loading overlay; an absent property is `undefined`. -/
structure Options where
  message : JSValue := JSValue.undefined
  fullscreen : JSValue := JSValue.undefined
  size : JSValue := JSValue.undefined
  font : JSValue := JSValue.undefined
  color : JSValue := JSValue.undefined
  speed : JSValue := JSValue.undefined
  id : JSValue := JSValue.undefined
  deriving DecidableEq, Repr

/-- The module-level `defaultOptions` (loading.js, lines 12-20). -/
def defaultOptions : Options :=
  { message := JSValue.str ""
    fullscreen := JSValue.bool true
    size := JSValue.str "100px"
    font := JSValue.str "2rem"
    color := JSValue.str "var(--primary)"
    speed := JSValue.str "1s"
    id := JSValue.str "loading" }

/-- The function `populateMissingWithDefaultOptions` (loading.js, lines 116-125):
the six assignments, in order; `id` is not assigned. -/
def populateMissingWithDefaultOptions (options : Options) : Options :=
  let options := { options with size := options.size.or defaultOptions.size }
  let options := { options with color := options.color.or defaultOptions.color }
  let options := { options with speed := options.speed.or defaultOptions.speed }
  let options := { options with font := options.font.or defaultOptions.font }
  let options := { options with message := options.message.or defaultOptions.message }
  let options := { options with fullscreen := options.fullscreen.nullish defaultOptions.fullscreen }
  options

/-- An element of the document. -/
structure Element where
  node : Nat
  id : String
  classes : List String
  style : String
  html : String
  deriving DecidableEq, Repr

namespace Element

/-- Class test, `hasClass`. -/
def hasClass (e : Element) (c : String) : Bool :=
  e.classes.contains c

/-- The jQuery `addClass`: the class is added when not yet present. -/
def addClass (e : Element) (c : String) : Element :=
  if e.hasClass c then e else { e with classes := e.classes ++ [c] }

/-- The jQuery `removeClass`. -/
def removeClass (e : Element) (c : String) : Element :=
  { e with classes := e.classes.filter (fun d => d != c) }

end Element

/-- The document: its elements in order, and the next unused node identity. -/
structure Page where
  body : List Element
  fresh : Nat
  deriving DecidableEq, Repr

/-- The selector `.loading`. -/
def isLoading (e : Element) : Bool :=
  e.hasClass "loading"

/-- The selector `.loading#id`. -/
def isLoadingWithId (id : String) (e : Element) : Bool :=
  e.hasClass "loading" && e.id == id

/-- The style text written by `startLoading` and `updateLoadingOptions`. -/
def styleText (size color speed font : JSValue) : String :=
  "--size: " ++ size.toStr ++ "; --color: " ++ color.toStr ++
    "; --speed: " ++ speed.toStr ++ "; --font: " ++ font.toStr

/-- The markup of the message paragraph. -/
def messageMarkup (message : JSValue) : String :=
  "<p class=\"message\">" ++ message.toStr ++ "</p>"

/-- Result of `startLoading`: the options object after the in-place merge, the
document, and the returned jQuery selection. -/
structure StartResult where
  options : Options
  page : Page
  returned : List Element
  deriving DecidableEq, Repr

/-- The function `startLoading` (loading.js, lines 35-47). -/
def startLoading (options : Options := defaultOptions) (pg : Page) : StartResult :=
  let options := populateMissingWithDefaultOptions options
  if (pg.body.filter isLoading).length > 0 && options.fullscreen.toBoolean then
    { options := options, page := pg, returned := pg.body.filter isLoading }
  else
    let loading : Element :=
      { node := pg.fresh, id := options.id.toStr, classes := ["loading"], style := "",
        html := messageMarkup options.message }
    let loading := if options.fullscreen.toBoolean then loading.addClass "fullscreen" else loading
    let loading :=
      { loading with style := styleText options.size options.color options.speed options.font }
    let pg : Page :=
      if options.fullscreen.toBoolean then
        { body := pg.body ++ [loading], fresh := pg.fresh + 1 }
      else
        { body := pg.body, fresh := pg.fresh + 1 }
    { options := options, page := pg, returned := [loading] }

/-- What `updateLoadingOptions` does to one selected element. -/
def updateElement (options : Options) (e : Element) : Element :=
  let e := { e with style := styleText options.size options.color options.speed options.font }
  let e := { e with html := messageMarkup options.message }
  if options.fullscreen.toBoolean then e.addClass "fullscreen" else e.removeClass "fullscreen"

/-- The function `updateLoadingOptions` (loading.js, lines 62-70); returns the
options object after the in-place merge and the document. -/
def updateLoadingOptions (options : Options) (pg : Page) : Options × Page :=
  let options := populateMissingWithDefaultOptions options
  let body := pg.body.map
    (fun e => if isLoadingWithId options.id.toStr e then updateElement options e else e)
  (options, { pg with body := body })

/-- The function `stopLoading` (loading.js, lines 132-134). -/
def stopLoading (id : String := "loading") (pg : Page) : Page :=
  { pg with body := pg.body.filter (fun e => !isLoadingWithId id e) }

/-- The call `s.replace(/%duration%/g, r)` on the characters of `s`: every
occurrence of the token, scanning from the left, is replaced by `r`. -/
def replaceDurationChars (r : List Char) : List Char → List Char
  | '%' :: 'd' :: 'u' :: 'r' :: 'a' :: 't' :: 'i' :: 'o' :: 'n' :: '%' :: rest =>
      r ++ replaceDurationChars r rest
  | c :: cs => c :: replaceDurationChars r cs
  | [] => []

/-- The call `originalMessage.replace(/%duration%/g, duration.toString())`. -/
def replaceDuration (s : String) (duration : Int) : String :=
  String.mk (replaceDurationChars (toString duration).data s.data)

/-- A JavaScript exception. -/
inductive JSError where
  | referenceError : JSError
  | typeError : JSError
  deriving DecidableEq, Repr

/-- The binding `const interval` of `startLoadingForDuration`: not yet
initialised (line 97 has not run), holding a running timer, or holding a timer
that `clearInterval` has cancelled. -/
inductive IntervalBinding where
  | uninitialised : IntervalBinding
  | running : IntervalBinding
  | cleared : IntervalBinding
  deriving DecidableEq, Repr

/-- The variables of one `startLoadingForDuration` call together with the
document; `callbackCalls` counts the invocations of `callback`. -/
structure Countdown where
  page : Page
  options : Options
  originalMessage : JSValue
  duration : Int
  interval : IntervalBinding
  callbackProvided : Bool
  callbackCalls : Nat
  deriving DecidableEq, Repr

/-- An exception together with the state of the call at the point of the
throw. -/
structure Thrown where
  error : JSError
  state : Countdown
  deriving DecidableEq, Repr

/-- The closure `update` of `startLoadingForDuration` (loading.js, lines 86-95).
Calling `replace` on a value that is not a string throws a `TypeError`; reading
`interval` before its declaration has run throws a `ReferenceError`, after
`updateLoadingOptions` and before `stopLoading` and the callback. -/
def update (st : Countdown) : Except Thrown Countdown :=
  match st.originalMessage with
  | JSValue.str original =>
    let options := { st.options with message := JSValue.str (replaceDuration original st.duration) }
    let r := updateLoadingOptions options st.page
    let st := { st with options := r.1, page := r.2 }
    if st.duration ≤ 0 then
      match st.interval with
      | IntervalBinding.uninitialised =>
        Except.error { error := JSError.referenceError, state := st }
      | _ =>
        let st := { st with interval := IntervalBinding.cleared }
        let st := { st with page := stopLoading "loading" st.page }
        if st.callbackProvided then
          Except.ok { st with callbackCalls := st.callbackCalls + 1 }
        else
          Except.ok st
    else
      Except.ok st
  | _ => Except.error { error := JSError.typeError, state := st }

/-- The synchronous part of `startLoadingForDuration` (loading.js, lines 83-101):
`startLoading`, the first `update()`, then the `setInterval` that initialises
`interval`. An exception thrown by `update()` leaves the function before the
timer is installed. -/
def startLoadingForDuration (options : Options) (duration : Int) (callbackProvided : Bool)
    (pg : Page) : Except Thrown Countdown :=
  let r := startLoading options pg
  let st : Countdown :=
    { page := r.page, options := r.options, originalMessage := r.options.message,
      duration := duration, interval := IntervalBinding.uninitialised,
      callbackProvided := callbackProvided, callbackCalls := 0 }
  match update st with
  | Except.ok st => Except.ok { st with interval := IntervalBinding.running }
  | Except.error e => Except.error e

/-- One period of the repeating timer: when the timer is still running its
callback decrements `duration` and calls `update`; a cancelled timer does not
fire. -/
def tick (st : Countdown) : Except Thrown Countdown :=
  match st.interval with
  | IntervalBinding.running => update { st with duration := st.duration - 1 }
  | _ => Except.ok st

/-- The state after `n` periods of the timer; the run is followed up to the
first exception. -/
def ticks : Nat → Countdown → Except Thrown Countdown
  | 0, st => Except.ok st
  | n + 1, st =>
    match tick st with
    | Except.ok st => ticks n st
    | Except.error e => Except.error e

/-- The call `startLoadingForDuration(options, duration, callback)` followed by
`n` periods of its timer. -/
def countdownAfter (options : Options) (duration : Int) (callbackProvided : Bool) (pg : Page)
    (n : Nat) : Except Thrown Countdown :=
  match startLoadingForDuration options duration callbackProvided pg with
  | Except.ok st => ticks n st
  | Except.error e => Except.error e

/-- What an exceptional outcome shows: the exception, the number of callback
invocations so far, the state of the `interval` binding, and the id and markup
of the elements of the document. -/
def thrownSummary (r : Except Thrown Countdown) :
    Option (JSError × Nat × IntervalBinding × List (String × String)) :=
  match r with
  | Except.error t =>
    some (t.error, t.state.callbackCalls, t.state.interval,
      t.state.page.body.map (fun e => (e.id, e.html)))
  | Except.ok _ => none

/-- The empty document. -/
def emptyPage : Page :=
  { body := [], fresh := 0 }

/-- The measurements `show` reads: the hovered element's offset and size, the
label's size once its text is set, and the window's inner size. -/
structure Layout where
  left : ℚ
  top : ℚ
  width : ℚ
  height : ℚ
  labelWidth : ℚ
  labelHeight : ℚ
  innerWidth : ℚ
  innerHeight : ℚ

/-- The object `show` passes to `label.css`. -/
structure LabelCss where
  top : ℚ
  left : ℚ
  opacity : ℚ

/-- The function `show` (label.js, lines 48-76). -/
def showLabel (m : Layout) : LabelCss :=
  let x := m.left + m.width / 2 - m.labelWidth / 2
  let y := m.top + m.height + 44
  let x := if x + m.labelWidth > m.innerWidth then m.innerWidth - m.labelWidth - 10 else x
  let y := if y + m.labelHeight + 16 ≥ m.innerHeight then m.top - m.labelHeight - 20 else y
  { top := y, left := x, opacity := 1 }

/-- An element at the origin of size 0, a label of size 0, and a viewport 100
wide and 60 high: the below position plus the margin ends exactly at the
bottom of the viewport. -/
def exactFitLayout : Layout :=
  { left := 0, top := 0, width := 0, height := 0, labelWidth := 0, labelHeight := 0,
    innerWidth := 100, innerHeight := 60 }

/-! ## popup.js -/

/-- The character class `[^a-zA-Z]`. -/
def matchesNonLetter (c : Char) : Bool :=
  !(('a' ≤ c && c ≤ 'z') || ('A' ≤ c && c ≤ 'Z'))

/-- The call `name.replace(/[^a-zA-Z]/g, "")` on the characters of `name`: each
character matching the class is replaced by the empty string. -/
def sanitizeChars : List Char → List Char
  | [] => []
  | c :: cs => if matchesNonLetter c then sanitizeChars cs else c :: sanitizeChars cs

/-- The sanitized name of `openPopup` (popup.js, line 10). -/
def sanitize (name : String) : String :=
  String.mk (sanitizeChars name.data)

/-- The inner markup of a popup: the background scrim, then the content wrapper
holding the fetched fragment and the close button. -/
def popupMarkup (fragment : String) : String :=
  "<div class=\"close popup-bg\"></div><div class=\"popup-content\">" ++ fragment ++
    "<button class=\"close\"><i class=\"fa fa-close\"></i></button></div>"

/-- The function `openPopup` (popup.js, lines 8-34) up to its `return`, for a
fetch of `name + ".html"` that answered `fragment`: the document and the popup
appended to it. The popup gets its `active` class later, from the timer. -/
def openPopup (name : String) (fragment : String) (pg : Page) : Page × Element :=
  let name := sanitize name
  let popup : Element :=
    { node := pg.fresh, id := name ++ "-popup", classes := ["popup"], style := "",
      html := popupMarkup fragment }
  ({ body := pg.body ++ [popup], fresh := pg.fresh + 1 }, popup)

/-- The inner markup of an alert popup: the content wrapper with title, message
and close button, then the background scrim. -/
def alertMarkup (message : String) : String :=
  "<div class=\"popup-content\"><h1>Alert</h1><p>" ++ message ++
    "</p><button class=\"close primary\">Close</button></div><div class=\"close popup-bg\"></div>"

/-- The name `alert` gives its popup at the time `now` (popup.js, line 57); it is
used unsanitized both in the id and in the call of `closePopup`. -/
def alertName (now : Nat) : String :=
  "alert-" ++ toString now

/-- The function `alert` (popup.js, lines 56-78) up to its `return`, called at
the time `now`: the document and the popup appended to it. -/
def alert (message : String) (now : Nat) (pg : Page) : Page × Element :=
  let name := alertName now
  let popup : Element :=
    { node := pg.fresh, id := name ++ "-popup", classes := ["popup"], style := "",
      html := alertMarkup message }
  ({ body := pg.body ++ [popup], fresh := pg.fresh + 1 }, popup)

/-- The timer callback of `openPopup` (popup.js, lines 26-31), 100 after the
popup was appended: `popup.addClass("active")` on the node it captured. The
timer callback of `alert` (lines 68-76) does the same. -/
def openPopupActivate (popup : Nat) (pg : Page) : Page :=
  let body := pg.body.map (fun e => if e.node = popup then e.addClass "active" else e)
  { pg with body := body }

/-- The selector `#name-popup.popup.active`. -/
def isOpenPopup (name : String) (e : Element) : Bool :=
  e.id == name ++ "-popup" && e.hasClass "popup" && e.hasClass "active"

/-- The synchronous part of `closePopup` (popup.js, lines 41-43): the selection
is taken with `name` as given, `active` is removed from the selected elements;
returns the document and the nodes of the selection, which the timer captures. -/
def closePopup (name : String) (pg : Page) : Page × List Nat :=
  let popup := (pg.body.filter (isOpenPopup name)).map (fun e => e.node)
  let body := pg.body.map (fun e => if isOpenPopup name e then e.removeClass "active" else e)
  ({ pg with body := body }, popup)

/-- A toggle control: its `value` attribute (absent or a string), the payloads
of the `toggle` events dispatched on it so far, oldest first, and the visibility
of each element whose `toggle-hidden` attribute names the control. -/
structure Toggle where
  value : Option String
  events : List Bool
  linkedVisible : List Bool
  deriving DecidableEq, Repr

/-- The attribute text `value + ""` that `attr(name, value)` writes for a boolean. -/
def boolText (b : Bool) : String :=
  if b then "true" else "false"

/-- The click handler (toggle.js, lines 16-30) on a click whose target is the
control. -/
def click (target : Toggle) : Toggle :=
  let value := target.value == some "true"
  let target := { target with value := some (boolText (!value)) }
  let target := { target with events := target.events ++ [!value] }
  { target with linkedVisible := target.linkedVisible.map (fun v => !v) }

end ChaseUI



namespace ChaseUI

/-! ## Lemmas on the option merge -/

/-- The merge leaves the id as supplied, whatever it is. -/
theorem populate_id (o : Options) : (populateMissingWithDefaultOptions o).id = o.id := rfl

/-- C2 (the code at the failing input): an options object without an id keeps
`undefined` as its id through the merge; the overlay `startLoading` creates
for it has the id text `undefined`, and `stopLoading()` with its default
argument `loading` leaves that overlay in the document. -/
theorem C2_absent_id_is_not_defaulted :
    (populateMissingWithDefaultOptions { message := JSValue.str "Hi" }).id = JSValue.undefined ∧
    ((startLoading { message := JSValue.str "Hi" } emptyPage).page.body.map (fun e => e.id)) =
      ["undefined"] ∧
    stopLoading "loading" (startLoading { message := JSValue.str "Hi" } emptyPage).page =
      (startLoading { message := JSValue.str "Hi" } emptyPage).page ∧
    (stopLoading "loading" (startLoading { message := JSValue.str "Hi" } emptyPage).page).body ≠ [] := by
  decide

/-! ## The countdown (C3, C4) -/

theorem update_of_pos (st : Countdown) (s : String) (hs : st.originalMessage = JSValue.str s)
    (hd : 0 < st.duration) :
    ∃ st2, update st = Except.ok st2 ∧ st2.originalMessage = st.originalMessage ∧
      st2.duration = st.duration ∧ st2.interval = st.interval ∧
      st2.callbackProvided = st.callbackProvided ∧ st2.callbackCalls = st.callbackCalls := by
  unfold update
  rw [hs]
  dsimp only
  rw [if_neg (by omega)]
  exact ⟨_, rfl, rfl, rfl, rfl, rfl, rfl⟩

theorem update_of_nonpos_running (st : Countdown) (s : String)
    (hs : st.originalMessage = JSValue.str s) (hd : st.duration ≤ 0)
    (hi : st.interval = IntervalBinding.running) :
    ∃ st2, update st = Except.ok st2 ∧ st2.interval = IntervalBinding.cleared ∧
      st2.callbackCalls = st.callbackCalls + (if st.callbackProvided then 1 else 0) := by
  unfold update
  rw [hs]
  dsimp only
  rw [if_pos hd, hi]
  dsimp only
  cases hc : st.callbackProvided
  · exact ⟨_, rfl, rfl, by simp⟩
  · exact ⟨_, rfl, rfl, by simp⟩

theorem ticks_of_cleared (n : Nat) (st : Countdown) (hi : st.interval = IntervalBinding.cleared) :
    ticks n st = Except.ok st := by
  induction n with
  | zero => rfl
  | succ n ih =>
    have ht : tick st = Except.ok st := by
      unfold tick
      rw [hi]
    show (match tick st with
      | Except.ok st => ticks n st
      | Except.error e => Except.error e) = Except.ok st
    rw [ht]
    exact ih

theorem ticks_succ_of_tick (n : Nat) (st st1 : Countdown) (h : tick st = Except.ok st1) :
    ticks (n + 1) st = ticks n st1 := by
  show (match tick st with
    | Except.ok st => ticks n st
    | Except.error e => Except.error e) = ticks n st1
  rw [h]

theorem tick_of_running (st : Countdown) (hi : st.interval = IntervalBinding.running) :
    tick st = update { st with duration := st.duration - 1 } := by
  unfold tick
  split
  · rfl
  · rename_i hne
    exact absurd hi hne

theorem ticks_add (a b : Nat) (st st1 : Countdown) (h : ticks a st = Except.ok st1) :
    ticks (a + b) st = ticks b st1 := by
  induction a generalizing st with
  | zero =>
    simp only [ticks, Except.ok.injEq] at h
    subst h
    simp
  | succ a ih =>
    rw [Nat.add_right_comm]
    cases ht : tick st with
    | error e =>
      have : ticks (a + 1) st = Except.error e := by
        show (match tick st with
          | Except.ok st => ticks a st
          | Except.error e => Except.error e) = Except.error e
        rw [ht]
      rw [this] at h
      cases h
    | ok st2 =>
      rw [ticks_succ_of_tick _ _ _ ht] at h ⊢
      exact ih st2 h

theorem ticks_of_lt (n : Nat) (st : Countdown) (s : String)
    (hs : st.originalMessage = JSValue.str s) (hi : st.interval = IntervalBinding.running)
    (hd : (n : Int) < st.duration) :
    ∃ st2, ticks n st = Except.ok st2 ∧ st2.originalMessage = JSValue.str s ∧
      st2.interval = IntervalBinding.running ∧ st2.duration = st.duration - n ∧
      st2.callbackProvided = st.callbackProvided ∧ st2.callbackCalls = st.callbackCalls := by
  induction n generalizing st with
  | zero => exact ⟨st, rfl, hs, hi, by simp, rfl, rfl⟩
  | succ n ih =>
    have hpos : 0 < ({ st with duration := st.duration - 1 } : Countdown).duration := by
      show 0 < st.duration - 1
      push_cast at hd
      omega
    obtain ⟨st1, h1, ho1, hd1, hi1, hp1, hc1⟩ :=
      update_of_pos { st with duration := st.duration - 1 } s hs hpos
    have hlt : (n : Int) < st1.duration := by
      rw [hd1]
      show (n : Int) < st.duration - 1
      push_cast at hd
      omega
    obtain ⟨st2, h2, ho2, hi2, hd2, hp2, hc2⟩ :=
      ih st1 (by rw [ho1]; exact hs) (by rw [hi1]; exact hi) hlt
    refine ⟨st2, ?_, ho2, hi2, ?_, ?_, ?_⟩
    · rw [ticks_succ_of_tick n st st1 (by rw [tick_of_running st hi]; exact h1)]
      exact h2
    · rw [hd2, hd1]
      show st.duration - 1 - (n : Int) = st.duration - ((n + 1 : Nat) : Int)
      push_cast
      omega
    · rw [hp2, hp1]
    · rw [hc2, hc1]

theorem startLoading_options (o : Options) (pg : Page) :
    (startLoading o pg).options = populateMissingWithDefaultOptions o := by
  unfold startLoading
  dsimp only
  split <;> rfl

theorem startLoadingForDuration_of_pos (o : Options) (d : Int) (cb : Bool) (pg : Page)
    (s : String) (hs : (populateMissingWithDefaultOptions o).message = JSValue.str s)
    (hd : 0 < d) :
    ∃ st, startLoadingForDuration o d cb pg = Except.ok st ∧
      st.originalMessage = JSValue.str s ∧ st.interval = IntervalBinding.running ∧
      st.duration = d ∧ st.callbackProvided = cb ∧ st.callbackCalls = 0 := by
  unfold startLoadingForDuration
  dsimp only
  obtain ⟨st1, h1, ho1, hd1, _, hp1, hc1⟩ :=
    update_of_pos
      { page := (startLoading o pg).page, options := (startLoading o pg).options,
        originalMessage := (startLoading o pg).options.message, duration := d,
        interval := IntervalBinding.uninitialised, callbackProvided := cb, callbackCalls := 0 }
      s (by rw [startLoading_options]; exact hs) hd
  rw [h1]
  refine ⟨_, rfl, ?_, rfl, hd1, hp1, hc1⟩
  show st1.originalMessage = JSValue.str s
  rw [ho1]
  show (startLoading o pg).options.message = JSValue.str s
  rw [startLoading_options]
  exact hs

/-- For a positive duration `d + 1` and a message that is a string after the
merge, no timer period before the last invokes the callback; the period
number `d + 1` cancels the timer and invokes the callback once when one is
provided; no later period changes anything. -/
theorem countdown_of_pos (o : Options) (d : Nat) (cb : Bool) (pg : Page) (s : String)
    (hs : (populateMissingWithDefaultOptions o).message = JSValue.str s) :
    (∀ k, k ≤ d → ∃ st, countdownAfter o (d + 1) cb pg k = Except.ok st ∧
      st.callbackCalls = 0 ∧ st.interval = IntervalBinding.running) ∧
    (∃ st, countdownAfter o (d + 1) cb pg (d + 1) = Except.ok st ∧
      st.callbackCalls = (if cb then 1 else 0) ∧ st.interval = IntervalBinding.cleared ∧
      ∀ k, countdownAfter o (d + 1) cb pg (d + 1 + k) = Except.ok st) := by
  obtain ⟨st0, h0, ho0, hi0, hd0, hp0, hc0⟩ :=
    startLoadingForDuration_of_pos o (d + 1) cb pg s hs (by omega)
  have hrun : ∀ k, k ≤ d → ∃ st, ticks k st0 = Except.ok st ∧
      st.originalMessage = JSValue.str s ∧ st.interval = IntervalBinding.running ∧
      st.duration = (d : Int) + 1 - k ∧ st.callbackProvided = cb ∧ st.callbackCalls = 0 := by
    intro k hk
    obtain ⟨st, h, ho, hi, hd, hp, hc⟩ := ticks_of_lt k st0 s ho0 hi0 (by rw [hd0]; omega)
    exact ⟨st, h, ho, hi, by rw [hd, hd0], by rw [hp, hp0], by rw [hc, hc0]⟩
  constructor
  · intro k hk
    obtain ⟨st, h, _, hi, _, _, hc⟩ := hrun k hk
    refine ⟨st, ?_, hc, hi⟩
    unfold countdownAfter
    rw [h0]
    exact h
  · obtain ⟨st, h, ho, hi, hd, hp, hc⟩ := hrun d (le_refl d)
    obtain ⟨st2, h2, hi2, hc2⟩ :=
      update_of_nonpos_running { st with duration := st.duration - 1 } s ho
        (by show st.duration - 1 ≤ 0; omega) hi
    have hlast : ticks 1 st = Except.ok st2 := by
      rw [ticks_succ_of_tick 0 st st2 (by rw [tick_of_running st hi]; exact h2)]
      rfl
    have hall : ticks (d + 1) st0 = Except.ok st2 := by
      rw [ticks_add d 1 st0 st h]
      exact hlast
    refine ⟨st2, ?_, ?_, hi2, ?_⟩
    · unfold countdownAfter
      rw [h0]
      exact hall
    · rw [hc2]
      show st.callbackCalls + (if st.callbackProvided = true then 1 else 0) = _
      rw [hc, hp]
      simp
    · intro k
      unfold countdownAfter
      rw [h0]
      dsimp only
      rw [ticks_add (d + 1) k st0 st2 hall]
      exact ticks_of_cleared k st2 hi2

/-- C3 (the code at the failing input): the overlay started with id `job` and a
duration of one second is still in the document once the countdown has
reached zero: the timer is cancelled and the callback has run, but
`stopLoading()` was called with its default id `loading`. -/
theorem C3_overlay_with_own_id_survives_countdown :
    (countdownAfter { id := JSValue.str "job", message := JSValue.str "%duration% left" }
        1 true emptyPage 1).toOption.map
      (fun st => (st.duration, st.interval, st.callbackCalls, st.options.id,
        st.page.body.map (fun e => (e.id, e.classes, e.html)))) =
    some (0, IntervalBinding.cleared, 1, JSValue.str "job",
      [("job", ["loading", "fullscreen"], "<p class=\"message\">0 left</p>")]) := by
  rfl

/-- C4 (the code at the failing input): with duration 0 the first `update()`
runs before `const interval` is initialised, so `clearInterval(interval)`
throws a `ReferenceError`: the callback has not been invoked, no timer is
installed, the overlay is still in the document, and no later period runs.
The same holds for a negative duration. -/
theorem C4_nonpositive_duration_throws_before_callback :
    (thrownSummary (startLoadingForDuration
        { id := JSValue.str "loading", message := JSValue.str "done" } 0 true emptyPage) =
      some (JSError.referenceError, 0, IntervalBinding.uninitialised,
        [("loading", "<p class=\"message\">done</p>")])) ∧
    (thrownSummary (startLoadingForDuration
        { id := JSValue.str "loading", message := JSValue.str "done" } (-3) true emptyPage) =
      some (JSError.referenceError, 0, IntervalBinding.uninitialised,
        [("loading", "<p class=\"message\">done</p>")])) ∧
    (thrownSummary (countdownAfter
        { id := JSValue.str "loading", message := JSValue.str "done" } 0 true emptyPage 5) =
      some (JSError.referenceError, 0, IntervalBinding.uninitialised,
        [("loading", "<p class=\"message\">done</p>")])) :=
  ⟨rfl, rfl, rfl⟩

/-! ## The tooltip label (C5, C6) -/

/-- C5: for every element offset and width, every label width and every viewport
width, the left coordinate that `show` assigns to the label keeps the label
inside the viewport on the right: left + label width is at most the viewport
width. The coordinate is the centred position when that fits and viewport
width - label width - 10 otherwise. (No assumption on the sign of the label
width is needed.) -/
theorem C5_label_right_edge_within_viewport (m : Layout) :
    (showLabel m).left + m.labelWidth ≤ m.innerWidth ∧
    (showLabel m).left =
      if m.left + m.width / 2 - m.labelWidth / 2 + m.labelWidth ≤ m.innerWidth then
        m.left + m.width / 2 - m.labelWidth / 2
      else m.innerWidth - m.labelWidth - 10 := by
  unfold showLabel
  dsimp only
  by_cases h : m.left + m.width / 2 - m.labelWidth / 2 + m.labelWidth > m.innerWidth
  · rw [if_pos h, if_neg (not_le.mpr h)]
    constructor
    · linarith
    · rfl
  · rw [if_neg h, if_pos (not_lt.mp h)]
    exact ⟨not_lt.mp h, rfl⟩

/-- C6 (counterexample): an element at top 0 of height 0, a label of height 0 and
a viewport of height 60. The below position is 44 and 44 + 0 + 16 = 60 does
not exceed the viewport height, yet `show` flips the label above the element,
to top -20. -/
theorem C6_flips_when_sum_equals_viewport_height :
    ¬ (exactFitLayout.top + exactFitLayout.height + 44 + exactFitLayout.labelHeight + 16 >
        exactFitLayout.innerHeight) ∧
    (showLabel exactFitLayout).top = exactFitLayout.top - exactFitLayout.labelHeight - 20 ∧
    (showLabel exactFitLayout).top ≠ exactFitLayout.top + exactFitLayout.height + 44 := by
  norm_num [showLabel, exactFitLayout]

/-- C6 (amended): `show` computes the below position y = top + height + 44 and
flips the label above the element, to top - label height - 20, exactly when
y + label height + 16 is at least the viewport height (reaches or exceeds
it); when y + label height + 16 is below the viewport height the label stays
at y. -/
theorem C6_flip_iff_reaches_viewport_height (m : Layout) :
    ((showLabel m).top =
      if m.top + m.height + 44 + m.labelHeight + 16 < m.innerHeight then m.top + m.height + 44
      else m.top - m.labelHeight - 20) ∧
    ((showLabel m).top = m.top + m.height + 44 ∨ (showLabel m).top = m.top - m.labelHeight - 20) ∧
    ((showLabel m).top = m.top + m.height + 44 ↔
      (m.top + m.height + 44 + m.labelHeight + 16 < m.innerHeight ∨
        m.top + m.height + 44 = m.top - m.labelHeight - 20)) := by
  unfold showLabel
  dsimp only
  by_cases h : m.top + m.height + 44 + m.labelHeight + 16 ≥ m.innerHeight
  · rw [if_pos h, if_neg (not_lt.mpr h)]
    refine ⟨rfl, Or.inr rfl, ?_⟩
    constructor
    · intro heq
      exact Or.inr heq.symm
    · rintro (hlt | heq)
      · exact absurd hlt (not_lt.mpr h)
      · exact heq.symm
  · rw [if_neg h, if_pos (not_le.mp h)]
    exact ⟨rfl, Or.inl rfl, fun _ => Or.inl (not_le.mp h), fun _ => rfl⟩

/-! ## The popup (C7, C8) -/

theorem matchesNonLetter_eq (c : Char) : matchesNonLetter c = !c.isAlpha := by
  simp only [matchesNonLetter, Char.isAlpha, Char.isUpper, Char.isLower]
  congr 1
  rw [Bool.or_comm]
  rfl

theorem sanitizeChars_eq_filter (cs : List Char) :
    sanitizeChars cs = cs.filter Char.isAlpha := by
  induction cs with
  | nil => rfl
  | cons c cs ih =>
    unfold sanitizeChars
    rw [matchesNonLetter_eq, ih]
    cases h : c.isAlpha <;> simp [List.filter, h]

/-- C8: for every name, the identifier `openPopup` uses is exactly the ASCII
letters of the name in their original order, every other character removed;
the id of the popup element is that identifier followed by `-popup`;
`contact-2` gives `contact`; two names with the same letters get the same popup
id, as `contact-2.html` and `contact!!.html` do. -/
theorem C8_sanitized_name_is_letter_subsequence (name fragment : String) (pg : Page) :
    (sanitize name).data = name.data.filter Char.isAlpha ∧
    (sanitize name).data.Sublist name.data ∧
    (∀ c ∈ (sanitize name).data, c.isAlpha = true) ∧
    (openPopup name fragment pg).2.id = sanitize name ++ "-popup" ∧
    sanitize "contact-2" = "contact" ∧
    (∀ (other fragment2 : String) (pg2 : Page),
      other.data.filter Char.isAlpha = name.data.filter Char.isAlpha →
        (openPopup other fragment2 pg2).2.id = (openPopup name fragment pg).2.id) ∧
    (openPopup "contact-2.html" fragment pg).2.id =
      (openPopup "contact!!.html" fragment pg).2.id := by
  have hfilter : (sanitize name).data = name.data.filter Char.isAlpha :=
    sanitizeChars_eq_filter _
  refine ⟨hfilter, ?_, ?_, rfl, by decide, ?_, ?_⟩
  · rw [hfilter]
    exact List.filter_sublist _
  · intro c hc
    rw [hfilter] at hc
    exact (List.mem_filter.mp hc).2
  · intro other fragment2 pg2 h
    show sanitize other ++ "-popup" = sanitize name ++ "-popup"
    have : sanitize other = sanitize name := by
      unfold sanitize
      rw [sanitizeChars_eq_filter, sanitizeChars_eq_filter, h]
    rw [this]
  · show sanitize "contact-2.html" ++ "-popup" = sanitize "contact!!.html" ++ "-popup"
    decide

/-- The popup of `alert` is closed by `closePopup` called with the unsanitized
name `alert-<time>`, which is how `alert` calls it; the sanitized name would be
`alert` and would not match. -/
theorem alert_closed_by_unsanitized_name :
    (alert "Saved" 1718000000000 emptyPage).2.id = "alert-1718000000000-popup" ∧
    (closePopup (alertName 1718000000000)
      (openPopupActivate 0 (alert "Saved" 1718000000000 emptyPage).1)).2 = [0] ∧
    (closePopup (sanitize (alertName 1718000000000))
      (openPopupActivate 0 (alert "Saved" 1718000000000 emptyPage).1)).2 = [] := by
  decide

/-- C9 (counterexample): a toggle control without a `value` attribute. Two clicks
leave the attribute at the text `false`, not absent as before the first
click. -/
theorem C9_absent_value_not_restored :
    (click (click { value := none, events := [], linkedVisible := [] })).value = some "false" ∧
    (click (click { value := none, events := [], linkedVisible := [] })).value ≠
      ({ value := none, events := [], linkedVisible := [] } : Toggle).value := by
  decide

/-- C9 (amended): for every toggle control, two clicks leave the `value`
attribute at the text of the control's original boolean state (`true` when the
attribute was exactly `true`, `false` otherwise), so the attribute returns to
its original value whenever that was `true` or `false`; exactly two `toggle`
events are dispatched, carrying the negation of the original state and then
the original state, each equal to the state the click wrote to the
attribute. -/
theorem C9_two_clicks_restore_boolean_state (t : Toggle) :
    (click (click t)).value = some (boolText (t.value == some "true")) ∧
    ((t.value = some "true" ∨ t.value = some "false") → (click (click t)).value = t.value) ∧
    (click (click t)).events =
      t.events ++ [!(t.value == some "true"), (t.value == some "true")] ∧
    (click t).events = t.events ++ [!(t.value == some "true")] ∧
    (click t).value = some (boolText (!(t.value == some "true"))) ∧
    (click (click t)).linkedVisible = t.linkedVisible := by
  by_cases h : t.value = some "true"
  · have hb : (t.value == some "true") = true := by simp [h]
    simp [click, hb, boolText, h, Function.comp_def]
  · have hb : (t.value == some "true") = false := by simpa using h
    simp only [click, hb, boolText]
    refine ⟨by decide, ?_, by simp, by simp, by decide, by simp [Function.comp_def]⟩
    rintro (h1 | h1)
    · exact absurd h1 h
    · rw [h1]
      decide

/-! ## The fullscreen overlay is a singleton (C10) -/

end ChaseUI
